import Mathlib

/-!
Verification of the inf-planet world-streaming, physics and particle core.

The JavaScript sources are embedded shallowly over ℚ (JS numbers are
modelled as exact rationals; external library primitives such as the
simplex noise closure, Math.pow with a fixed fractional exponent and
Math.sqrt are abstracted as function parameters, since they live outside
the repository).  Stateful modules become explicit state passing.
-/

set_option maxRecDepth 8000

namespace InfPlanet

/-- Configuration constant CHUNK_SIZE from config.js. -/
def CHUNK_SIZE : ℚ := 60

/-- Configuration constant RENDER_DISTANCE from config.js. -/
def RENDER_DISTANCE : ℕ := 3

/-- TreeRecord pushed into chunk userData (world.js:107-112): world x and z
of the trunk, width scale s and height scale hs. -/
structure TreeRecord where
  x : ℚ
  z : ℚ
  s : ℚ
  hs : ℚ
deriving DecidableEq

/-- The registry-visible data of a chunk: its tree list (group.userData.trees,
world.js:161).  Mesh and material objects are render-side resources with no
influence on the core state, so they are not modelled. -/
abbrev ChunkData := List TreeRecord

/-- The activeChunks map (world.js:6): an insertion-ordered association list
from integer chunk coordinates to chunk data, mirroring a JS Map keyed by
the string cx,cz. -/
abbrev Registry := List ((ℤ × ℤ) × ChunkData)

/-- Key set of the registry, in insertion order. -/
def keysOf (reg : Registry) : List (ℤ × ℤ) := reg.map Prod.fst

/-- Offsets visited by the build double loop (world.js:171-172): x runs from
−RENDER_DISTANCE to RENDER_DISTANCE in the outer loop, z in the inner loop. -/
def ringOffsets : List (ℤ × ℤ) :=
  (List.range (2 * RENDER_DISTANCE + 1)).flatMap fun a =>
    (List.range (2 * RENDER_DISTANCE + 1)).map fun b =>
      ((a : ℤ) - (RENDER_DISTANCE : ℤ), (b : ℤ) - (RENDER_DISTANCE : ℤ))

/-- One iteration of the build loop (world.js:173-176): if the key is not in
the registry, createChunk is called and its result registered.  The tree
list produced by createChunk uses Math.random, so it is abstracted by the
generator argument gen; the registry effect is the appended entry. -/
def buildStep (gen : ℤ × ℤ → ChunkData) (c : ℤ × ℤ) (reg : Registry)
    (o : ℤ × ℤ) : Registry :=
  let key : ℤ × ℤ := (c.1 + o.1, c.2 + o.2)
  if (reg.find? fun e => decide (e.1 = key)).isSome then reg
  else reg ++ [(key, gen key)]

/-- The build pass of updateChunks (world.js:171-178). -/
def buildPhase (gen : ℤ × ℤ → ChunkData) (reg : Registry) (c : ℤ × ℤ) :
    Registry :=
  ringOffsets.foldl (buildStep gen c) reg

/-- Squared chunk-grid distance between two chunk coordinates; world.js:182
takes its square root before comparing. -/
def dist2 (k c : ℤ × ℤ) : ℤ := (k.1 - c.1) ^ 2 + (k.2 - c.2) ^ 2

/-- The evict pass of updateChunks (world.js:180-190): every entry with
Math.sqrt(dist2) > RENDER_DISTANCE + 1 is removed from the registry.  Both
sides of that comparison are nonnegative and the square root is strictly
monotone, so the test is equivalent to dist2 > (RENDER_DISTANCE + 1)^2,
which is how it is embedded here. -/
def evictPhase (reg : Registry) (c : ℤ × ℤ) : Registry :=
  reg.filter fun e => decide (dist2 e.1 c ≤ ((RENDER_DISTANCE : ℤ) + 1) ^ 2)

/-- Observer chunk coordinate (world.js:168-169): Math.floor of each player
coordinate divided by CHUNK_SIZE. -/
def chunkCoordOf (px pz : ℚ) : ℤ × ℤ := (⌊px / CHUNK_SIZE⌋, ⌊pz / CHUNK_SIZE⌋)

/-- Body of updateChunks once the observer chunk is known: the build pass
runs first, then the evict pass.  The second component models the JS return
value: the function body contains no return statement, so every call
evaluates to undefined, modelled as none. -/
def updateChunksAt (gen : ℤ × ℤ → ChunkData) (reg : Registry) (c : ℤ × ℤ) :
    Registry × Option Bool :=
  (evictPhase (buildPhase gen reg c) c, none)

/-- updateChunks (world.js:167-191). -/
def updateChunks (gen : ℤ × ℤ → ChunkData) (reg : Registry) (px pz : ℚ) :
    Registry × Option Bool :=
  updateChunksAt gen reg (chunkCoordOf px pz)

/-- Number of createChunk calls made by one updateChunks call: the build
pass only appends, so the length difference counts the new chunks. -/
def createdCount (gen : ℤ × ℤ → ChunkData) (reg : Registry) (px pz : ℚ) : ℕ :=
  (buildPhase gen reg (chunkCoordOf px pz)).length - reg.length

/-- Number of registry deletions made by one updateChunks call. -/
def evictedCount (gen : ℤ × ℤ → ChunkData) (reg : Registry) (px pz : ℚ) : ℕ :=
  (buildPhase gen reg (chunkCoordOf px pz)).length -
    (updateChunks gen reg px pz).1.length

/-- A generator producing empty tree lists, used to instantiate concrete
runs of the streaming manager. -/
def gen0 : ℤ × ℤ → ChunkData := fun _ => []

/-- External numeric primitives used by the core: the module-level simplex
noise closure noise2D (world.js:7, from the simplex-noise package), the
library function Math.pow specialised to exponent 1.5, and Math.sqrt.
These live outside the repository, so they are abstracted as fixed function
parameters; fixing a Prims value corresponds to fixing a noise seed and a
JS engine. -/
structure Prims where
  noise2D : ℚ → ℚ → ℚ
  pow15 : ℚ → ℚ
  sqrt : ℚ → ℚ

/-- getTerrainHeight (world.js:10-20): a ridged low-frequency component
pow(1 − |noise(x·0.008, z·0.008)|, 1.5)·15, plus a detail layer
noise(x·0.04, z·0.04)·4, minus the constant offset 10. -/
def getTerrainHeight (P : Prims) (x z : ℚ) : ℚ :=
  P.pow15 (1 - |P.noise2D (x * (8 / 1000)) (z * (8 / 1000))|) * 15
    + P.noise2D (x * (4 / 100)) (z * (4 / 100)) * 4 - 10

/-- Mutable module-level state surrounding the terrain function: the
active-chunk registry is the mutable state of world.js.  Used to state that
a getTerrainHeight call neither reads nor writes it. -/
structure SimState where
  activeChunks : Registry

/-- State-passing form of a getTerrainHeight call: the body of the source
function reads only its two arguments and the fixed noise closure, and
assigns only the local y, so the module state passes through untouched. -/
def getTerrainHeightCall (P : Prims) (s : SimState) (x z : ℚ) : ℚ × SimState :=
  (getTerrainHeight P x z, s)

/-- Color triple; components are exact rationals. -/
abbrev RGB := ℚ × ℚ × ℚ

/-- THREE.Color of hex 0xd2b48c (world.js:31): bytes scaled to 0..1. -/
def c1 : RGB := (210 / 255, 180 / 255, 140 / 255)

/-- THREE.Color of hex 0x4a6b36 (world.js:32). -/
def c2 : RGB := (74 / 255, 107 / 255, 54 / 255)

/-- THREE.Color of hex 0x1a330a (world.js:33). -/
def c3 : RGB := (26 / 255, 51 / 255, 10 / 255)

/-- THREE.Color of hex 0x8a8a8a (world.js:34). -/
def c4 : RGB := (138 / 255, 138 / 255, 138 / 255)

/-- THREE.Color.lerpColors: componentwise a + (b − a)·t. -/
def lerpColors (a b : RGB) (t : ℚ) : RGB :=
  (a.1 + (b.1 - a.1) * t,
   a.2.1 + (b.2.1 - a.2.1) * t,
   a.2.2 + (b.2.2 - a.2.2) * t)

/-- Per-vertex biome color in createChunk (world.js:42-53): four elevation
bands with linear interpolation inside each band. -/
def chunkColor (h : ℚ) : RGB :=
  if h < -4 then c1
  else if h < 0 then lerpColors c1 c2 ((h - (-4)) / 4)
  else if h < 8 then lerpColors c2 c3 (h / 8)
  else lerpColors c3 c4 (min 1 ((h - 8) / 10))

/-- Pixel color bytes in MapRenderer.generateTile (MapRenderer.js:79-101):
the same four bands in byte scale, except that below the sand band the tile
renderer additionally draws shallow water below −5 and deep water below −6. -/
def tileColor (h : ℚ) : RGB :=
  if h < -4 then
    if h < -5 then
      if h < -6 then ((30 : ℚ), (63 : ℚ), (90 : ℚ)) else ((59 : ℚ), (125 : ℚ), (156 : ℚ))
    else ((210 : ℚ), (180 : ℚ), (140 : ℚ))
  else if h < 0 then
    let t := (h - (-4)) / 4
    (210 + (74 - 210) * t, 180 + (107 - 180) * t, 140 + (54 - 140) * t)
  else if h < 8 then
    let t := h / 8
    (74 + (26 - 74) * t, 107 + (51 - 107) * t, 54 + (10 - 54) * t)
  else
    let t := min 1 ((h - 8) / 10)
    (26 + (138 - 26) * t, 51 + (138 - 51) * t, 10 + (138 - 10) * t)

/-- Terrain cell color of the large-map overview (updateLargeMap): a flat
five-color step function with thresholds −6, −5, −4 and 5, written in the
source as a default grass color overridden by an if/else-if chain. -/
def largeMapColor (h : ℚ) : RGB :=
  if h < -6 then ((30 : ℚ), (63 : ℚ), (90 : ℚ))
  else if h < -5 then ((59 : ℚ), (125 : ℚ), (156 : ℚ))
  else if h < -4 then ((210 : ℚ), (180 : ℚ), (140 : ℚ))
  else if h > 5 then ((26 : ℚ), (51 : ℚ), (10 : ℚ))
  else ((74 : ℚ), (107 : ℚ), (54 : ℚ))

/-- Byte scale of a 0..1 color, for comparing the mesh path with the byte
oriented map renderers. -/
def bytesOf (col : RGB) : RGB := (255 * col.1, 255 * col.2.1, 255 * col.2.2)

/-- Width scale as read from a TreeRecord by the collision path: the JS
reads t.s || 1.0, so a zero (or missing) scale falls back to 1. -/
def widthScaleOf (t : TreeRecord) : ℚ := if t.s = 0 then 1 else t.s

/-- Height scale as read from a TreeRecord: t.hs || 1.0. -/
def heightScaleOf (t : TreeRecord) : ℚ := if t.hs = 0 then 1 else t.hs

/-- Trunk radius used by resolveTreeCollisions (physics module line 625):
0.8 · widthScale. -/
def collisionTrunkRadius (t : TreeRecord) : ℚ := (8 / 10) * widthScaleOf t

/-- Trunk height used by resolveTreeCollisions (line 626): 3 · heightScale. -/
def collisionTrunkHeight (t : TreeRecord) : ℚ := 3 * heightScaleOf t

/-- Canopy start offset above the tree base in resolveTreeCollisions
(line 637): 2 · heightScale. -/
def collisionLeafStart (t : TreeRecord) : ℚ := 2 * heightScaleOf t

/-- Canopy end offset in resolveTreeCollisions (line 638): 9 · heightScale. -/
def collisionLeafEnd (t : TreeRecord) : ℚ := 9 * heightScaleOf t

/-- Canopy max radius in resolveTreeCollisions (line 639): 3 · widthScale. -/
def collisionLeafMaxRadius (t : TreeRecord) : ℚ := 3 * widthScaleOf t

/-- Canopy height in resolveTreeCollisions (line 640): 7 · heightScale. -/
def collisionLeafHeight (t : TreeRecord) : ℚ := 7 * heightScaleOf t

/-- Canopy radius at height relY above the canopy start, decreasing
linearly from the max radius to 0 (line 644). -/
def collisionCanopyRadius (t : TreeRecord) (relY : ℚ) : ℚ :=
  collisionLeafMaxRadius t * (1 - relY / collisionLeafHeight t)

/-- Trunk radius used by getTreeHeight (line 674). -/
def queryTrunkRadius (t : TreeRecord) : ℚ := (8 / 10) * widthScaleOf t

/-- Trunk top offset used by getTreeHeight (line 675): 3 · heightScale. -/
def queryTrunkTop (t : TreeRecord) : ℚ := 3 * heightScaleOf t

/-- Canopy max radius used by getTreeHeight (line 683). -/
def queryLeafMaxRadius (t : TreeRecord) : ℚ := 3 * widthScaleOf t

/-- Canopy height used by getTreeHeight (line 684). -/
def queryLeafHeight (t : TreeRecord) : ℚ := 7 * heightScaleOf t

/-- Canopy start offset used by getTreeHeight (line 685). -/
def queryLeafStart (t : TreeRecord) : ℚ := 2 * heightScaleOf t

/-- Standable canopy surface height above the tree base at horizontal
distance dist from the trunk (lines 688-689): the inverse cone of the
collision canopy. -/
def querySurfaceOffset (t : TreeRecord) (dist : ℚ) : ℚ :=
  queryLeafStart t + queryLeafHeight t * (1 - dist / queryLeafMaxRadius t)

/-- Velocity change a single tree contributes in the particle avoidance
loop of obstacleAvoidance (airParticles.js:142-153): a purely horizontal
push away from the trunk position, active within the fixed radius 6 and
weighted by (36 − dist²)/36; the TreeRecord scales are never read. -/
def treeAvoidancePush (P : Prims) (t : TreeRecord) (px pz dt : ℚ) : ℚ × ℚ :=
  let dxp := px - t.x
  let dzp := pz - t.z
  let d2 := dxp * dxp + dzp * dzp
  if d2 < 6 * 6 ∧ d2 > 1 / 10000 then
    let dist := P.sqrt d2
    let push := (6 * 6 - d2) / (6 * 6)
    (dxp / dist * push * 10 * dt, dzp / dist * push * 10 * dt)
  else (0, 0)

/-- A concrete Prims instance for closed evaluations; the identity stands
in for Math.sqrt (no statement instantiated at prims0 depends on the value
a square root takes). -/
def prims0 : Prims := ⟨fun _ _ => 0, fun _ => 0, fun q => q⟩

/-- Ceiling division on naturals: Math.ceil(a / b) for positive b. -/
def ceilDiv (a b : ℕ) : ℕ := (a + b - 1) / b

/-- The updates allowed this frame (airParticles.js:355):
min(PARTICLE_MAX_UPDATES_PER_FRAME, PARTICLE_COUNT).  N is PARTICLE_COUNT
and M is PARTICLE_MAX_UPDATES_PER_FRAME, which line 12 forces to be ≥ 1. -/
def updatesThisFrame (N M : ℕ) : ℕ := min M N

/-- The stride computed by updateAirParticles (airParticles.js:356):
max(1, Math.ceil(PARTICLE_COUNT / updatesThisFrame)). -/
def strideOf (N M : ℕ) : ℕ := max 1 (ceilDiv N (updatesThisFrame N M))

/-- Offset rotation (airParticles.js:357): offset := (offset + 1) % stride,
performed once at the start of every call. -/
def nextOffset (s off : ℕ) : ℕ := (off + 1) % s

/-- Offset value after k calls starting from stored offset off. -/
def offsetAfter (s off : ℕ) : ℕ → ℕ
  | 0 => off
  | k + 1 => nextOffset s (offsetAfter s off k)

/-- The index loop of updateAirParticles (airParticles.js:361): visits i
from the rotated offset in steps of the stride while i < PARTICLE_COUNT.
The fuel argument bounds the recursion; fuel = N is enough for any
positive stride. -/
def loopIdxAux : ℕ → ℕ → ℕ → ℕ → List ℕ
  | 0, _, _, _ => []
  | fuel + 1, N, s, i => if i < N then i :: loopIdxAux fuel N s (i + s) else []

/-- Particle indices updated by one updateAirParticles call whose rotated
offset is off. -/
def updatedIndices (N M off : ℕ) : List ℕ :=
  loopIdxAux N N (strideOf N M) off

/-- Particle indices updated by the k-th call (counted from 0) after the
stored offset is off₀; each call first rotates the offset, hence k + 1. -/
def updatedAtCall (N M off₀ k : ℕ) : List ℕ :=
  updatedIndices N M (offsetAfter (strideOf N M) off₀ (k + 1))

/-- Fixed physics tick length (main.js:87): 1/120 s. -/
def TIME_STEP : ℚ := 1 / 120

/-- Cap on physics steps per rendered frame (main.js:88). -/
def MAX_PHYSICS_STEPS : ℕ := 4

/-- Cap on the wall-clock delta added per frame (main.js:89): 0.05 s. -/
def MAX_FRAME_DELTA : ℚ := 5 / 100

/-- The accumulator while loop of frameLoop (main.js:118-127): while the
accumulator holds at least TIME_STEP, run one physics step, subtract
TIME_STEP and count it; once the step count reaches MAX_PHYSICS_STEPS the
accumulator is zeroed and the loop breaks.  The fuel argument bounds the
recursion; frameAdvance passes MAX_PHYSICS_STEPS, which is never exhausted
because the cap branch fires first. -/
def physLoopAux : ℕ → ℚ → ℕ → ℚ × ℕ
  | 0, acc, steps => (acc, steps)
  | fuel + 1, acc, steps =>
      if TIME_STEP ≤ acc then
        if MAX_PHYSICS_STEPS ≤ steps + 1 then (0, steps + 1)
        else physLoopAux fuel (acc - TIME_STEP) (steps + 1)
      else (acc, steps)

/-- One frame of the fixed-step driver (main.js:114-127): the raw clock
delta is clamped to MAX_FRAME_DELTA, added to the accumulator, and the
capped step loop runs.  Returns the remaining accumulator and the number
of updatePhysics steps executed, each of length TIME_STEP. -/
def frameAdvance (acc d : ℚ) : ℚ × ℕ :=
  physLoopAux MAX_PHYSICS_STEPS (acc + min d MAX_FRAME_DELTA) 0

/-- Three-component vector over exact rationals (THREE.Vector3). -/
structure Vec3 where
  x : ℚ
  y : ℚ
  z : ℚ
deriving DecidableEq

/-- Componentwise vector addition. -/
def vadd (a b : Vec3) : Vec3 := ⟨a.x + b.x, a.y + b.y, a.z + b.z⟩

/-- Componentwise vector subtraction. -/
def vsub (a b : Vec3) : Vec3 := ⟨a.x - b.x, a.y - b.y, a.z - b.z⟩

/-- Scalar multiple of a vector. -/
def vscale (s : ℚ) (a : Vec3) : Vec3 := ⟨s * a.x, s * a.y, s * a.z⟩

/-- THREE.Vector3.addScaledVector: a + b·s. -/
def addScaled (a b : Vec3) (s : ℚ) : Vec3 :=
  ⟨a.x + b.x * s, a.y + b.y * s, a.z + b.z * s⟩

/-- Dot product. -/
def vdot (a b : Vec3) : ℚ := a.x * b.x + a.y * b.y + a.z * b.z

/-- Cross product. -/
def vcross (a b : Vec3) : Vec3 :=
  ⟨a.y * b.z - a.z * b.y, a.z * b.x - a.x * b.z, a.x * b.y - a.y * b.x⟩

/-- THREE.Vector3.length, via the abstract Math.sqrt primitive. -/
def vlength (P : Prims) (v : Vec3) : ℚ :=
  P.sqrt (v.x * v.x + v.y * v.y + v.z * v.z)

/-- THREE.Vector3.normalize: divideScalar(length() || 1), so the zero
vector stays zero. -/
def vnormalize (P : Prims) (v : Vec3) : Vec3 :=
  let l := vlength P v
  let d := if l = 0 then 1 else l
  ⟨v.x / d, v.y / d, v.z / d⟩

/-- Quaternion (camera orientation). -/
structure Quat where
  x : ℚ
  y : ℚ
  z : ℚ
  w : ℚ
deriving DecidableEq

/-- THREE.Vector3.applyQuaternion: with t = 2·(q.xyz × v), the result is
v + q.w·t + q.xyz × t. -/
def applyQuaternion (v : Vec3) (q : Quat) : Vec3 :=
  let qv : Vec3 := ⟨q.x, q.y, q.z⟩
  let t := vscale 2 (vcross qv v)
  vadd v (vadd (vscale q.w t) (vcross qv t))

/-- Keys-pressed snapshot (input.js keys object). -/
structure Keys where
  w : Bool
  s : Bool
  a : Bool
  d : Bool
  space : Bool
  shift : Bool
  crouch : Bool
  fly : Bool
deriving DecidableEq

/-- Mutable state of the physics module: playerPos, velocity, onGround,
isUnderwater and the interpolated collision height currentHeight. -/
structure PlayerState where
  pos : Vec3
  vel : Vec3
  onGround : Bool
  isUnderwater : Bool
  currentHeight : ℚ
deriving DecidableEq

/-- Runtime-tunable physics parameters (physicsParams object, fed from
DEFAULTS in config.js). -/
structure PhysicsParams where
  MOVE_SPEED : ℚ
  MAX_AIR_SPEED : ℚ
  JUMP_FORCE : ℚ
  GRAVITY : ℚ
deriving DecidableEq

/-- PHYSICS_CONSTANTS.FRICTION from config.js. -/
def FRICTION : ℚ := 8

/-- PHYSICS_CONSTANTS.AIR_ACCEL from config.js. -/
def AIR_ACCEL : ℚ := 100

/-- PHYSICS_CONSTANTS.GROUND_ACCEL from config.js. -/
def GROUND_ACCEL : ℚ := 14

/-- PHYSICS_CONSTANTS.PLAYER_HEIGHT from config.js. -/
def PLAYER_HEIGHT : ℚ := 5 / 2

/-- PHYSICS_CONSTANTS.CROUCH_HEIGHT from config.js. -/
def CROUCH_HEIGHT : ℚ := 3 / 2

/-- PHYSICS_CONSTANTS.STEP_HEIGHT from config.js. -/
def STEP_HEIGHT : ℚ := 1

/-- Player capsule radius, a local constant of resolveTreeCollisions. -/
def PLAYER_RADIUS : ℚ := 4 / 10

/-- The DEFAULTS physics parameters from config.js. -/
def defaultParams : PhysicsParams :=
  { MOVE_SPEED := 7, MAX_AIR_SPEED := 35 / 10, JUMP_FORCE := 22, GRAVITY := 70 }

/-- Quake-style accelerate (physics module lines 699-707): close only the
deficit between the speed along the wish direction and the wish speed,
capped by accel·wishSpeed·dt, applied to the horizontal components. -/
def accelerate (v wishDir : Vec3) (wishSpeed accel dt : ℚ) : Vec3 :=
  let currentSpeed := vdot v wishDir
  let addSpeed := wishSpeed - currentSpeed
  if addSpeed ≤ 0 then v
  else
    let accelSpeed := min (accel * wishSpeed * dt) addSpeed
    ⟨v.x + accelSpeed * wishDir.x, v.y, v.z + accelSpeed * wishDir.z⟩

/-- applyFriction (physics module lines 709-718): exponential decay of the
full velocity vector, snapping to zero below speed 0.1. -/
def applyFriction (P : Prims) (v : Vec3) (dt frictionVal : ℚ) : Vec3 :=
  let speed := vlength P v
  if speed < 1 / 10 then ⟨0, 0, 0⟩
  else
    let drop := speed * frictionVal * dt
    let newSpeed := max 0 (speed - drop)
    vscale (newSpeed / speed) v

/-- Target speed selection (lines 541-542): sprint doubles, crouch halves
and overrides sprint. -/
def targetSpeedOf (params : PhysicsParams) (k : Keys) : ℚ :=
  let ts := if k.shift then params.MOVE_SPEED * 2 else params.MOVE_SPEED
  if k.crouch then params.MOVE_SPEED * (5 / 10) else ts

/-- Move speed actually used this step (line 544): scaled by 0.4 when the
underwater flag is set. -/
def currentMoveSpeed (params : PhysicsParams) (k : Keys) (uw : Bool) : ℚ :=
  if uw then targetSpeedOf params k * (4 / 10) else targetSpeedOf params k

/-- Gravity actually used this step (line 545): scaled by 0.2 underwater. -/
def currentGravity (params : PhysicsParams) (uw : Bool) : ℚ :=
  if uw then params.GRAVITY * (2 / 10) else params.GRAVITY

/-- Friction actually used this step (line 546): scaled by 2.5 underwater. -/
def currentFriction (uw : Bool) : ℚ :=
  if uw then FRICTION * (25 / 10) else FRICTION

/-- The underwater test performed at the top of every locked physics step
(line 501): playerPos.y < −5.0. -/
def underwaterFlag (st : PlayerState) : Bool := decide (st.pos.y < -5)

/-- Chunk lookup by key; a missing chunk contributes no trees. -/
def lookupChunk (reg : Registry) (key : ℤ × ℤ) : ChunkData :=
  match reg.find? fun e => decide (e.1 = key) with
  | some e => e.2
  | none => []

/-- The 3×3 neighborhood offsets scanned by getNearbyTrees (lines 598-599),
x outer and z inner. -/
def neighborOffsets : List (ℤ × ℤ) :=
  [(-1, -1), (-1, 0), (-1, 1), (0, -1), (0, 0), (0, 1), (1, -1), (1, 0), (1, 1)]

/-- getNearbyTrees (lines 593-610): concatenate the tree lists of the 3×3
chunk neighborhood around the given world position. -/
def getNearbyTrees (reg : Registry) (px pz : ℚ) : List TreeRecord :=
  let cx := ⌊px / CHUNK_SIZE⌋
  let cz := ⌊pz / CHUNK_SIZE⌋
  neighborOffsets.flatMap fun o => lookupChunk reg (cx + o.1, cz + o.2)

/-- Effect of one tree on (playerPos, velocity) in resolveTreeCollisions
(lines 616-657): horizontal push out of trunk overlap, then either stand on
a shallow canopy overlap (drop to just below the canopy base and cancel
upward velocity) or push out horizontally.  The per-tree dist is computed
once, before the trunk push, exactly as in the source. -/
def resolveTreeStep (P : Prims) (s : Vec3 × Vec3) (t : TreeRecord) : Vec3 × Vec3 :=
  let pos := s.1
  let vel := s.2
  let treeBaseY := getTerrainHeight P t.x t.z
  let dx := pos.x - t.x
  let dz := pos.z - t.z
  let dist := P.sqrt (dx * dx + dz * dz)
  let trunkH_Max := treeBaseY + collisionTrunkHeight t
  let pos1 :=
    if pos.y ≥ treeBaseY ∧ pos.y ≤ trunkH_Max + 1 ∧
        dist < collisionTrunkRadius t + PLAYER_RADIUS then
      addScaled pos (vnormalize P ⟨dx, 0, dz⟩)
        (collisionTrunkRadius t + PLAYER_RADIUS - dist)
    else pos
  let leafStart := treeBaseY + collisionLeafStart t
  let leafEnd := treeBaseY + collisionLeafEnd t
  if pos1.y > leafStart ∧ pos1.y < leafEnd then
    let relY := pos1.y - leafStart
    let r := collisionCanopyRadius t relY
    if dist < r + PLAYER_RADIUS then
      let hOverlap := r + PLAYER_RADIUS - dist
      if relY < hOverlap then
        (⟨pos1.x, leafStart - 5 / 100, pos1.z⟩,
         ⟨vel.x, if vel.y > 0 then 0 else vel.y, vel.z⟩)
      else
        (addScaled pos1 (vnormalize P ⟨dx, 0, dz⟩) hOverlap, vel)
    else (pos1, vel)
  else (pos1, vel)

/-- resolveTreeCollisions (lines 612-659): fold the per-tree resolution
over the nearby trees, threading the mutated position and velocity. -/
def resolveTreeCollisions (P : Prims) (trees : List TreeRecord)
    (pos vel : Vec3) : Vec3 × Vec3 :=
  trees.foldl (resolveTreeStep P) (pos, vel)

/-- Maximum of an accumulator that starts at −Infinity, modelled as none. -/
def optMax (o : Option ℚ) (q : ℚ) : Option ℚ :=
  some (match o with
        | none => q
        | some a => max a q)

/-- Effect of one tree on the getTreeHeight accumulator (lines 665-695):
the trunk top counts when the query point is within the trunk radius and
no more than 0.5 below it; the canopy surface cone counts when within the
canopy radius and no more than 0.5 below the surface. -/
def getTreeHeightStep (P : Prims) (x z curY : ℚ) (acc : Option ℚ)
    (t : TreeRecord) : Option ℚ :=
  let treeBaseY := getTerrainHeight P t.x t.z
  let dx := x - t.x
  let dz := z - t.z
  let dist := P.sqrt (dx * dx + dz * dz)
  let trunkTopY := treeBaseY + queryTrunkTop t
  let acc1 :=
    if dist < queryTrunkRadius t ∧ curY ≥ trunkTopY - 1 / 2 then optMax acc trunkTopY
    else acc
  if dist < queryLeafMaxRadius t then
    let surfaceY := treeBaseY + querySurfaceOffset t dist
    if curY ≥ surfaceY - 1 / 2 then optMax acc1 surfaceY else acc1
  else acc1

/-- getTreeHeight (lines 661-697): highest standable tree surface beneath
the query point; none models the −Infinity start value. -/
def getTreeHeight (P : Prims) (trees : List TreeRecord) (x z curY : ℚ) :
    Option ℚ :=
  trees.foldl (getTreeHeightStep P x z curY) none

/-- updatePhysics (physics module lines 497-591).  Arguments mirror the JS
call updatePhysics(dt, camera, controls) plus the ambient module state: the
abstract numeric primitives, the tunable physicsParams, the activeChunks
registry read through getNearbyTrees, the camera quaternion, the
controls.isLocked flag, the keys snapshot and the player state. -/
def updatePhysics (P : Prims) (params : PhysicsParams) (reg : Registry)
    (dt : ℚ) (cam : Quat) (isLocked : Bool) (k : Keys) (st : PlayerState) :
    PlayerState :=
  if !isLocked then st
  else
    let uw := underwaterFlag st
    if k.fly then
      let fwd := applyQuaternion ⟨0, 0, -1⟩ cam
      let rgt := applyQuaternion ⟨1, 0, 0⟩ cam
      let w1 := if k.w then vadd ⟨0, 0, 0⟩ fwd else ⟨0, 0, 0⟩
      let w2 := if k.s then vsub w1 fwd else w1
      let w3 := if k.d then vadd w2 rgt else w2
      let w4 := if k.a then vsub w3 rgt else w3
      let w5 := if k.space then ⟨w4.x, w4.y + 1, w4.z⟩ else w4
      let w6 := if k.crouch then ⟨w5.x, w5.y - 1, w5.z⟩ else w5
      let wish := if 0 < vdot w6 w6 then vnormalize P w6 else w6
      let flySpeed := if k.shift then params.MOVE_SPEED * 2 else params.MOVE_SPEED
      let flyVel := vscale flySpeed wish
      { st with
        pos := addScaled st.pos flyVel dt
        vel := ⟨0, 0, 0⟩
        onGround := false
        isUnderwater := uw }
    else
      let targetHeight := if k.crouch then CROUCH_HEIGHT else PLAYER_HEIGHT
      let ch := st.currentHeight + (targetHeight - st.currentHeight) * 10 * dt
      let fwd0 := applyQuaternion ⟨0, 0, -1⟩ cam
      let rgt0 := applyQuaternion ⟨1, 0, 0⟩ cam
      let fwd := vnormalize P ⟨fwd0.x, 0, fwd0.z⟩
      let rgt := vnormalize P ⟨rgt0.x, 0, rgt0.z⟩
      let w1 := if k.w then vadd ⟨0, 0, 0⟩ fwd else ⟨0, 0, 0⟩
      let w2 := if k.s then vsub w1 fwd else w1
      let w3 := if k.d then vadd w2 rgt else w2
      let w4 := if k.a then vsub w3 rgt else w3
      let wish := vnormalize P w4
      let cms := currentMoveSpeed params k uw
      let cg := currentGravity params uw
      let cf := currentFriction uw
      let moved :=
        if st.onGround then
          let v1 := applyFriction P st.vel dt cf
          let v2 := accelerate v1 wish cms GROUND_ACCEL dt
          if k.space then ((⟨v2.x, params.JUMP_FORCE, v2.z⟩ : Vec3), false)
          else (v2, true)
        else
          let airAccel := if uw then GROUND_ACCEL else AIR_ACCEL
          let v1 := accelerate st.vel wish params.MAX_AIR_SPEED airAccel dt
          let v2 : Vec3 := ⟨v1.x, v1.y - cg * dt, v1.z⟩
          let v3 := if uw then (⟨v2.x, v2.y * (1 - dt * 2), v2.z⟩ : Vec3) else v2
          (v3, false)
      let vel1 := moved.1
      let onG1 := moved.2
      let pos1 := addScaled st.pos vel1 dt
      let trees := getNearbyTrees reg pos1.x pos1.z
      let pv := resolveTreeCollisions P trees pos1 vel1
      let pos2 := pv.1
      let vel2 := pv.2
      let terrainH := getTerrainHeight P pos2.x pos2.z
      let trees2 := getNearbyTrees reg pos2.x pos2.z
      let treeH := getTreeHeight P trees2 pos2.x pos2.z pos2.y
      let groundH :=
        match treeH with
        | none => terrainH
        | some hq => max terrainH hq
      let distToGround := pos2.y - (groundH + ch)
      let landed :=
        if distToGround < 0 then
          ((⟨pos2.x, groundH + ch, pos2.z⟩ : Vec3), (⟨vel2.x, 0, vel2.z⟩ : Vec3), true)
        else if onG1 = true ∧ distToGround < STEP_HEIGHT ∧ vel2.y ≤ 0 ∧ k.space = false then
          ((⟨pos2.x, groundH + ch, pos2.z⟩ : Vec3), (⟨vel2.x, 0, vel2.z⟩ : Vec3), true)
        else (pos2, vel2, false)
      let pos3 := landed.1
      let vel3 := landed.2.1
      let onG2 := landed.2.2
      if pos3.y < -50 then
        { pos := ⟨0, 20, 0⟩, vel := ⟨0, 0, 0⟩, onGround := onG2,
          isUnderwater := uw, currentHeight := ch }
      else
        { pos := pos3, vel := vel3, onGround := onG2,
          isUnderwater := uw, currentHeight := ch }

/-- All-false keys snapshot. -/
def keys0 : Keys :=
  { w := false, s := false, a := false, d := false, space := false,
    shift := false, crouch := false, fly := false }

/-- A concrete underwater player state: at rest at (0, −6, 0). -/
def stUnder : PlayerState :=
  { pos := ⟨0, -6, 0⟩, vel := ⟨0, 0, 0⟩, onGround := false,
    isUnderwater := false, currentHeight := 5 / 2 }

lemma chunkCoordOf_zero : chunkCoordOf 0 0 = ((0 : ℤ), (0 : ℤ)) := by
  norm_num [chunkCoordOf, CHUNK_SIZE]

lemma length_buildStep (gen : ℤ × ℤ → ChunkData) (c : ℤ × ℤ) (reg : Registry)
    (o : ℤ × ℤ) : (buildStep gen c reg o).length ≤ reg.length + 1 := by
  unfold buildStep
  by_cases h : ((reg.find? fun e => decide (e.1 = (c.1 + o.1, c.2 + o.2))).isSome)
  · simp [h]
  · simp [h]

lemma length_foldl_buildStep (gen : ℤ × ℤ → ChunkData) (c : ℤ × ℤ)
    (l : List (ℤ × ℤ)) (reg : Registry) :
    (l.foldl (buildStep gen c) reg).length ≤ reg.length + l.length := by
  induction l generalizing reg with
  | nil => simp
  | cons o t ih =>
      calc (List.foldl (buildStep gen c) (buildStep gen c reg o) t).length
          ≤ (buildStep gen c reg o).length + t.length := ih _
        _ ≤ reg.length + 1 + t.length :=
            Nat.add_le_add_right (length_buildStep gen c reg o) _
        _ = reg.length + (o :: t).length := by simp; omega

lemma mem_keysOf_buildStep {k : ℤ × ℤ} (gen : ℤ × ℤ → ChunkData) (c : ℤ × ℤ)
    (reg : Registry) (o : ℤ × ℤ) :
    k ∈ keysOf (buildStep gen c reg o) ↔
      k ∈ keysOf reg ∨ k = (c.1 + o.1, c.2 + o.2) := by
  unfold buildStep
  by_cases h : ((reg.find? fun e => decide (e.1 = (c.1 + o.1, c.2 + o.2))).isSome)
  · rw [List.find?_isSome] at h
    obtain ⟨e, he, hpe⟩ := h
    have hkey : (c.1 + o.1, c.2 + o.2) ∈ keysOf reg := by
      have : e.1 = (c.1 + o.1, c.2 + o.2) := of_decide_eq_true hpe
      exact this ▸ List.mem_map_of_mem Prod.fst he
    have hsome : ((reg.find? fun e => decide (e.1 = (c.1 + o.1, c.2 + o.2))).isSome) := by
      rw [List.find?_isSome]
      exact ⟨e, he, hpe⟩
    simp only [hsome, if_true]
    constructor
    · exact Or.inl
    · rintro (hk | hk)
      · exact hk
      · exact hk ▸ hkey
  · simp only [h, if_false, keysOf, List.map_append, List.mem_append]
    simp [keysOf]

lemma mem_keysOf_buildFold {k : ℤ × ℤ} (gen : ℤ × ℤ → ChunkData) (c : ℤ × ℤ)
    (l : List (ℤ × ℤ)) (reg : Registry) :
    k ∈ keysOf (l.foldl (buildStep gen c) reg) ↔
      k ∈ keysOf reg ∨ ∃ o ∈ l, k = (c.1 + o.1, c.2 + o.2) := by
  induction l generalizing reg with
  | nil => simp
  | cons o t ih =>
      rw [List.foldl_cons, ih, mem_keysOf_buildStep]
      constructor
      · rintro ((h | h) | ⟨o', ho', rfl⟩)
        · exact Or.inl h
        · exact Or.inr ⟨o, List.mem_cons_self o t, h⟩
        · exact Or.inr ⟨o', List.mem_cons_of_mem o ho', rfl⟩
      · rintro (h | ⟨o', ho', rfl⟩)
        · exact Or.inl (Or.inl h)
        · rcases List.mem_cons.mp ho' with h | h
          · exact Or.inl (Or.inr (by rw [h]))
          · exact Or.inr ⟨o', h, rfl⟩

lemma mem_keysOf_evictPhase {k : ℤ × ℤ} (reg : Registry) (c : ℤ × ℤ) :
    k ∈ keysOf (evictPhase reg c) ↔
      (∃ e ∈ reg, e.1 = k) ∧ dist2 k c ≤ ((RENDER_DISTANCE : ℤ) + 1) ^ 2 := by
  unfold evictPhase keysOf
  constructor
  · intro hk
    obtain ⟨e, he, rfl⟩ := List.mem_map.mp hk
    obtain ⟨he', hp⟩ := List.mem_filter.mp he
    exact ⟨⟨e, he', rfl⟩, of_decide_eq_true hp⟩
  · rintro ⟨⟨e, he, rfl⟩, hd⟩
    exact List.mem_map.mpr ⟨e, List.mem_filter.mpr ⟨he, decide_eq_true hd⟩, rfl⟩

/-- Claim C1, counterexample: a single updateChunks call from an empty
registry with the observer at the origin creates 49 chunks and removes 4
(the four ring corners), so neither the build count nor the evict count is
bounded by 1 per frame. -/
theorem updateChunks_frame_budget_counterexample :
    createdCount gen0 [] 0 0 = 49 ∧ ¬ createdCount gen0 [] 0 0 ≤ 1 ∧
      evictedCount gen0 [] 0 0 = 4 ∧ ¬ evictedCount gen0 [] 0 0 ≤ 1 := by
  simp only [createdCount, evictedCount, updateChunks, chunkCoordOf_zero]
  refine ⟨by decide, by decide, by decide, by decide⟩

/-- Claim C1, amended: one updateChunks call creates at most
(2·RENDER_DISTANCE+1)² = 49 chunks (every missing chunk of the square
around the observer), and removes every active chunk whose squared
chunk-grid distance exceeds (RENDER_DISTANCE+1)²; no per-frame build or
evict budget exists. -/
theorem updateChunks_budget_amended (gen : ℤ × ℤ → ChunkData) (reg : Registry)
    (px pz : ℚ) :
    createdCount gen reg px pz ≤ (2 * RENDER_DISTANCE + 1) ^ 2 ∧
    ∀ k, k ∈ keysOf (updateChunks gen reg px pz).1 →
      dist2 k (⌊px / CHUNK_SIZE⌋, ⌊pz / CHUNK_SIZE⌋) ≤
        ((RENDER_DISTANCE : ℤ) + 1) ^ 2 := by
  constructor
  · have hb := length_foldl_buildStep gen (chunkCoordOf px pz) ringOffsets reg
    have hr : ringOffsets.length = 49 := by decide
    have hsq : (2 * RENDER_DISTANCE + 1) ^ 2 = 49 := by decide
    simp only [createdCount, buildPhase]
    omega
  · intro k hk
    simp only [updateChunks, updateChunksAt, chunkCoordOf] at hk ⊢
    exact ((mem_keysOf_evictPhase _ _).mp hk).2

/-- Claim C2: the ring is never complete for a stationary observer.  The
corner coordinate (3,3) has Chebyshev distance 3 = RENDER_DISTANCE from the
observer chunk (0,0), so the claim requires it to be active eventually; but
the evict pass removes it in the very call that builds it, because its
Euclidean grid distance √18 exceeds RENDER_DISTANCE + 1 = 4.  Hence after
every updateChunks call, from any starting registry, (3,3) is absent, and
yet the build pass does create it (perpetual build/evict churn). -/
theorem updateChunks_ring_corner_churn :
    (∀ gen reg, ((3 : ℤ), (3 : ℤ)) ∉ keysOf (updateChunks gen reg 0 0).1) ∧
    (∀ gen, ((3 : ℤ), (3 : ℤ)) ∈ keysOf (buildPhase gen [] (0, 0))) ∧
    max ((3 : ℤ) - 0).natAbs ((3 : ℤ) - 0).natAbs ≤ RENDER_DISTANCE := by
  refine ⟨?_, ?_, by decide⟩
  · intro gen reg hk
    simp only [updateChunks, chunkCoordOf_zero, updateChunksAt] at hk
    have hd := ((mem_keysOf_evictPhase _ _).mp hk).2
    revert hd
    decide
  · intro gen
    rw [buildPhase, mem_keysOf_buildFold]
    refine Or.inr ⟨((3 : ℤ), (3 : ℤ)), by decide, by norm_num⟩

/-- Claim C9: updateChunks does not return a didWork boolean.  The JS
function has no return statement, so every call evaluates to undefined
(modelled as none) — even a call that creates 49 chunks — and the
shadow-map refresh condition in main.js therefore never sees chunk work. -/
theorem updateChunks_didWork_undefined :
    (∀ gen reg px pz, (updateChunks gen reg px pz).2 = none) ∧
    createdCount gen0 [] 0 0 ≠ 0 := by
  refine ⟨fun gen reg px pz => rfl, ?_⟩
  simp only [createdCount, chunkCoordOf_zero]
  decide

/-- Claim C4: getTerrainHeight is deterministic.  With the noise seed fixed
(a fixed Prims value), a call leaves the mutable module state unchanged,
two successive calls at the same (x, z) return the same value, and the
returned value does not depend on the mutable state at all. -/
theorem getTerrainHeight_deterministic (P : Prims) (x z : ℚ) (s t : SimState) :
    (getTerrainHeightCall P s x z).2 = s ∧
    (getTerrainHeightCall P s x z).1 =
      (getTerrainHeightCall P (getTerrainHeightCall P s x z).2 x z).1 ∧
    (getTerrainHeightCall P s x z).1 = (getTerrainHeightCall P t x z).1 :=
  ⟨rfl, rfl, rfl⟩

/-- Claim C8, counterexample: the biome classifications disagree.  At
elevation 4 the large map paints flat grass bytes (74,107,54) while the
mesh path computes the lerped color with bytes (50,79,32); at elevation −7
the tile map paints deep water (30,63,90) while the mesh path paints sand
(210,180,140). -/
theorem biome_classification_counterexample :
    largeMapColor 4 ≠ bytesOf (chunkColor 4) ∧
    tileColor (-7) ≠ bytesOf (chunkColor (-7)) := by
  constructor <;>
    norm_num [largeMapColor, tileColor, chunkColor, bytesOf, lerpColors,
      c1, c2, c3, c4, Prod.ext_iff]

/-- Claim C8, amended: for every elevation h ≥ −4 the mesh-coloring path of
createChunk and the tile path of MapRenderer.generateTile apply the
identical step/lerp classification (tile bytes are exactly 255 times the
mesh color components); below −4 generateTile adds water bands the mesh
path does not have, and the large-map overview uses its own flat
five-color step classification. -/
theorem biome_classification_amended (h : ℚ) (hge : -4 ≤ h) :
    tileColor h = bytesOf (chunkColor h) := by
  have h1 : ¬ h < -4 := not_lt.mpr hge
  by_cases h2 : h < 0 <;> by_cases h3 : h < 8 <;>
    simp only [tileColor, chunkColor, bytesOf, lerpColors, c1, c2, c3, c4,
      if_neg h1, if_pos, if_neg, h2, h3, if_true, if_false, Prod.mk.injEq] <;>
    refine ⟨by ring, by ring, by ring⟩

/-- Witness for the amended claim C8 at elevation 0. -/
theorem biome_classification_amended_witness :
    (-4 : ℚ) ≤ 0 ∧ tileColor 0 = bytesOf (chunkColor 0) :=
  ⟨by norm_num, biome_classification_amended 0 (by norm_num)⟩

/-- Claim C3, counterexample: the collision path and the particle-avoidance
path do not use the same tree geometry.  Two trees that differ only in
their scales have different collision trunk radii and canopy radii, yet the
avoidance push they exert at the same relative position is identical,
because the avoidance loop never reads the scales. -/
theorem tree_geometry_counterexample :
    treeAvoidancePush prims0 ⟨0, 0, 1, 1⟩ 3 4 (1 / 100) =
      treeAvoidancePush prims0 ⟨0, 0, 2, 2⟩ 3 4 (1 / 100) ∧
    collisionTrunkRadius ⟨0, 0, 1, 1⟩ ≠ collisionTrunkRadius ⟨0, 0, 2, 2⟩ ∧
    collisionLeafMaxRadius ⟨0, 0, 1, 1⟩ ≠ collisionLeafMaxRadius ⟨0, 0, 2, 2⟩ := by
  refine ⟨rfl, ?_, ?_⟩ <;>
    norm_num [collisionTrunkRadius, collisionLeafMaxRadius, widthScaleOf]

/-- Claim C3, amended: the two consumers inside the physics module,
resolveTreeCollisions and getTreeHeight, do derive identical trunk and
canopy geometry from a TreeRecord (trunk radius 0.8·widthScale, trunk top
3.0·heightScale, canopy from 2.0·heightScale to 9.0·heightScale with max
radius 3.0·widthScale decreasing linearly, the standable surface being the
inverse of the collision cone); the particle-avoidance path however uses
none of it: its push is independent of both scales. -/
theorem tree_geometry_amended :
    (∀ t : TreeRecord,
        queryTrunkRadius t = collisionTrunkRadius t ∧
        queryTrunkTop t = collisionTrunkHeight t ∧
        queryLeafStart t = collisionLeafStart t ∧
        queryLeafMaxRadius t = collisionLeafMaxRadius t ∧
        queryLeafHeight t = collisionLeafHeight t ∧
        collisionLeafEnd t = collisionLeafStart t + collisionLeafHeight t) ∧
    (∀ (t : TreeRecord) (d : ℚ),
        collisionCanopyRadius t (querySurfaceOffset t d - queryLeafStart t) = d) ∧
    (∀ (P : Prims) (x z s₁ hs₁ s₂ hs₂ px pz dt : ℚ),
        treeAvoidancePush P ⟨x, z, s₁, hs₁⟩ px pz dt =
          treeAvoidancePush P ⟨x, z, s₂, hs₂⟩ px pz dt) := by
  refine ⟨?_, ?_, fun P x z s₁ hs₁ s₂ hs₂ px pz dt => rfl⟩
  · intro t
    refine ⟨rfl, rfl, rfl, rfl, rfl, ?_⟩
    simp only [collisionLeafEnd, collisionLeafStart, collisionLeafHeight]
    ring
  · intro t d
    have hws : widthScaleOf t ≠ 0 := by
      unfold widthScaleOf; split
      · norm_num
      · assumption
    have hhs : heightScaleOf t ≠ 0 := by
      unfold heightScaleOf; split
      · norm_num
      · assumption
    simp only [collisionCanopyRadius, querySurfaceOffset, queryLeafStart,
      queryLeafHeight, queryLeafMaxRadius, collisionLeafMaxRadius,
      collisionLeafHeight]
    field_simp
    ring

lemma strideOf_pos (N M : ℕ) : 0 < strideOf N M :=
  lt_of_lt_of_le Nat.zero_lt_one (le_max_left 1 _)

lemma offsetAfter_lt (s off : ℕ) (hs : 0 < s) (k : ℕ) :
    offsetAfter s off (k + 1) < s := Nat.mod_lt _ hs

lemma offsetAfter_eq (s off : ℕ) : ∀ k, offsetAfter s off (k + 1) = (off + k + 1) % s := by
  intro k
  induction k with
  | zero => rfl
  | succ n ih =>
      show nextOffset s (offsetAfter s off (n + 1)) = _
      rw [ih, nextOffset, Nat.mod_add_mod]
      congr 1

lemma strideOf_eq_ceilDiv (N M : ℕ) (hN : 0 < N) (hM : 0 < M) :
    strideOf N M = ceilDiv N M := by
  unfold strideOf updatesThisFrame ceilDiv
  rcases le_total M N with hMN | hNM
  · rw [min_eq_left hMN]
    have h1 : 1 ≤ (N + M - 1) / M := by
      rw [Nat.one_le_div_iff hM]
      omega
    omega
  · rw [min_eq_right hNM]
    have h1 : (N + N - 1) / N = 1 := Nat.div_eq_of_lt_le (by omega) (by omega)
    have h2 : (N + M - 1) / M = 1 := Nat.div_eq_of_lt_le (by omega) (by omega)
    rw [h1, h2]
    exact max_self 1

lemma mem_loopIdxAux (s : ℕ) (hs : 0 < s) :
    ∀ (fuel N i j : ℕ), N ≤ i + fuel →
      (j ∈ loopIdxAux fuel N s i ↔ j < N ∧ ∃ m, j = i + m * s) := by
  intro fuel
  induction fuel with
  | zero =>
      intro N i j hfi
      simp only [loopIdxAux, List.not_mem_nil, false_iff]
      rintro ⟨hj, m, rfl⟩
      omega
  | succ n ih =>
      intro N i j hfi
      by_cases hi : i < N
      · simp only [loopIdxAux, if_pos hi, List.mem_cons]
        rw [ih N (i + s) j (by omega)]
        constructor
        · rintro (rfl | ⟨hj, m, rfl⟩)
          · exact ⟨hi, 0, by omega⟩
          · exact ⟨hj, m + 1, by rw [Nat.succ_mul]; omega⟩
        · rintro ⟨hj, m, rfl⟩
          rcases m with _ | m'
          · exact Or.inl (by omega)
          · refine Or.inr ⟨hj, m', ?_⟩
            rw [Nat.succ_mul] at *
            omega
      · simp only [loopIdxAux, if_neg hi, List.not_mem_nil, false_iff]
        rintro ⟨hj, m, rfl⟩
        omega

lemma mem_updated_iff (N M off i : ℕ) (hs : off < strideOf N M) :
    i ∈ updatedIndices N M off ↔ i < N ∧ i % strideOf N M = off := by
  rw [updatedIndices, mem_loopIdxAux (strideOf N M) (strideOf_pos N M) N N off i (by omega)]
  constructor
  · rintro ⟨hi, m, rfl⟩
    refine ⟨hi, ?_⟩
    rw [Nat.add_mul_mod_self_right, Nat.mod_eq_of_lt hs]
  · rintro ⟨hi, hmod⟩
    refine ⟨hi, i / strideOf N M, ?_⟩
    conv_lhs => rw [← Nat.mod_add_div i (strideOf N M)]
    rw [hmod]
    ring

lemma filter_mod_card (s a r : ℕ) (hs : 0 < s) (hr : r < s) :
    ((Finset.range s).filter fun k => (a + k) % s = r).card = 1 := by
  have hb : a % s < s := Nat.mod_lt _ hs
  set b := a % s with hbdef
  set k₀ := if b ≤ r then r - b else s + r - b with hk₀
  have hk₀lt : k₀ < s := by rw [hk₀]; split <;> omega
  have key : ∀ k, k < s → (((a + k) % s = r) ↔ k = k₀) := by
    intro k hk
    have h1 : (a + k) % s = (b + k) % s := by rw [hbdef, Nat.mod_add_mod]
    have h2 : (b + k) % s = if b + k < s then b + k else b + k - s := by
      split
      · exact Nat.mod_eq_of_lt (by assumption)
      · have hge : s ≤ b + k := le_of_not_lt (by assumption)
        rw [Nat.mod_eq_sub_mod hge, Nat.mod_eq_of_lt (by omega)]
    rw [h1, h2, hk₀]
    split <;> split <;> omega
  rw [Finset.card_eq_one]
  refine ⟨k₀, ?_⟩
  ext k
  simp only [Finset.mem_filter, Finset.mem_range, Finset.mem_singleton]
  constructor
  · rintro ⟨hk, hc⟩
    exact (key k hk).mp hc
  · rintro rfl
    exact ⟨hk₀lt, (key k₀ hk₀lt).mpr rfl⟩

/-- Claim C5: particle round-robin coverage.  With stride =
ceil(PARTICLE_COUNT / maxUpdatesPerFrame), over stride consecutive
updateAirParticles calls from any stored offset, every particle index below
PARTICLE_COUNT appears in the updated set of exactly one call. -/
theorem updateAirParticles_roundRobin (N M off₀ i : ℕ)
    (hN : 0 < N) (hM : 0 < M) (hi : i < N) :
    ((Finset.range (ceilDiv N M)).filter fun k => i ∈ updatedAtCall N M off₀ k).card = 1 := by
  have hs : 0 < strideOf N M := strideOf_pos N M
  have hstride : ceilDiv N M = strideOf N M := (strideOf_eq_ceilDiv N M hN hM).symm
  have hpred : ∀ k ∈ Finset.range (ceilDiv N M),
      (i ∈ updatedAtCall N M off₀ k) = (((off₀ + 1) + k) % strideOf N M = i % strideOf N M) := by
    intro k _
    rw [updatedAtCall, offsetAfter_eq,
      mem_updated_iff N M _ i (by exact Nat.mod_lt _ hs)]
    have harr : off₀ + k + 1 = (off₀ + 1) + k := by omega
    rw [harr]
    simp only [hi, true_and]
    exact propext ⟨fun h => h.symm, fun h => h.symm⟩
  rw [Finset.filter_congr fun k hk => by rw [hpred k hk]]
  rw [hstride]
  exact filter_mod_card (strideOf N M) (off₀ + 1) (i % strideOf N M) hs (Nat.mod_lt _ hs)

/-- Witness for claim C5 with 5 particles, a per-frame cap of 2, stored
offset 0 and particle index 3: the stride is 3 and index 3 is updated in
exactly one of 3 consecutive calls. -/
theorem updateAirParticles_roundRobin_witness :
    ((0 : ℕ) < 5 ∧ (0 : ℕ) < 2 ∧ (3 : ℕ) < 5) ∧
    ((Finset.range (ceilDiv 5 2)).filter fun k => 3 ∈ updatedAtCall 5 2 0 k).card = 1 :=
  ⟨⟨by decide, by decide, by decide⟩,
    updateAirParticles_roundRobin 5 2 0 3 (by decide) (by decide) (by decide)⟩

lemma physLoopAux_bound :
    ∀ (fuel steps : ℕ) (acc : ℚ), fuel + steps = MAX_PHYSICS_STEPS →
      steps < MAX_PHYSICS_STEPS →
      (physLoopAux fuel acc steps).2 ≤ MAX_PHYSICS_STEPS ∧
      ((physLoopAux fuel acc steps).2 = MAX_PHYSICS_STEPS →
        (physLoopAux fuel acc steps).1 = 0) := by
  intro fuel
  induction fuel with
  | zero =>
      intro steps acc h1 h2
      exact absurd h1 (by omega)
  | succ n ih =>
      intro steps acc h1 h2
      simp only [physLoopAux]
      by_cases hacc : TIME_STEP ≤ acc
      · simp only [if_pos hacc]
        by_cases hcap : MAX_PHYSICS_STEPS ≤ steps + 1
        · simp only [if_pos hcap]
          refine ⟨by omega, ?_⟩
          intro _
          trivial
        · simp only [if_neg hcap]
          exact ih (steps + 1) (acc - TIME_STEP) (by omega) (by omega)
      · simp only [if_neg hacc]
        exact ⟨by omega, fun h => absurd h (by omega)⟩

/-- Claim C6: the fixed-step driver of frameLoop runs at most
MAX_PHYSICS_STEPS = 4 physics steps of TIME_STEP = 1/120 s per rendered
frame; when the cap is reached the remaining accumulated time is discarded
(the accumulator is reset to zero), and the wall-clock delta added to the
accumulator is clamped to at most MAX_FRAME_DELTA = 0.05 s. -/
theorem frameLoop_budget (acc d : ℚ) :
    (frameAdvance acc d).2 ≤ MAX_PHYSICS_STEPS ∧
    ((frameAdvance acc d).2 = MAX_PHYSICS_STEPS → (frameAdvance acc d).1 = 0) ∧
    min d MAX_FRAME_DELTA ≤ MAX_FRAME_DELTA ∧
    TIME_STEP = 1 / 120 ∧ MAX_PHYSICS_STEPS = 4 ∧ MAX_FRAME_DELTA = 5 / 100 := by
  have h := physLoopAux_bound MAX_PHYSICS_STEPS 0 (acc + min d MAX_FRAME_DELTA)
    (by omega) (by norm_num [MAX_PHYSICS_STEPS])
  exact ⟨h.1, h.2, min_le_right _ _, rfl, rfl, rfl⟩

/-- Claim C10: when the pointer-lock controls are not locked, updatePhysics
is a complete no-op — for every dt, camera orientation, keys snapshot,
registry and starting state, the player state (position, velocity,
grounded flag, underwater flag and interpolated collision height) is
returned unchanged, so in particular no gravity is applied while unlocked. -/
theorem updatePhysics_noop_when_unlocked (P : Prims) (params : PhysicsParams)
    (reg : Registry) (dt : ℚ) (cam : Quat) (k : Keys) (st : PlayerState) :
    updatePhysics P params reg dt cam false k st = st := rfl

/-- Claim C7: a physics step that begins with player y below −5.0 sets the
underwater flag, and through it selects a movement target speed 0.4 times
the one used when not underwater and a gravity 0.2 times the one used when
not underwater (the selectors are exactly the expressions updatePhysics
evaluates at lines 544-545). -/
theorem updatePhysics_underwater_multipliers (params : PhysicsParams)
    (k : Keys) (st : PlayerState) (hy : st.pos.y < -5) :
    underwaterFlag st = true ∧
    currentMoveSpeed params k (underwaterFlag st) =
      (4 / 10) * currentMoveSpeed params k false ∧
    currentGravity params (underwaterFlag st) =
      (2 / 10) * currentGravity params false := by
  have hf : underwaterFlag st = true := decide_eq_true hy
  refine ⟨hf, ?_, ?_⟩ <;>
    simp only [hf, currentMoveSpeed, currentGravity, Bool.false_eq_true,
      if_true, if_false] <;>
    ring

/-- Witness for claim C7: the player at rest at height −6 with default
physics parameters and no keys pressed. -/
theorem updatePhysics_underwater_multipliers_witness :
    stUnder.pos.y < -5 ∧
    (underwaterFlag stUnder = true ∧
      currentMoveSpeed defaultParams keys0 (underwaterFlag stUnder) =
        (4 / 10) * currentMoveSpeed defaultParams keys0 false ∧
      currentGravity defaultParams (underwaterFlag stUnder) =
        (2 / 10) * currentGravity defaultParams false) :=
  ⟨by norm_num [stUnder],
    updatePhysics_underwater_multipliers defaultParams keys0 stUnder
      (by norm_num [stUnder])⟩

end InfPlanet
